import Mathlib

/-!
Verification of the SVG Maker MCP server (src/src/index.ts) against its
natural-language specification.

The core under verification is the tool dispatch and validation layer:
the SVG structural validator `validateSvgContent`, the per-tool handlers
(render, save, optimize, format, data-uri), and the request validator.
External collaborators (the XML well-formedness checker `XMLValidator`,
the XML parser `XMLParser` of fast-xml-parser, the SVGO minifier, the
sharp rasterizer, and the Node path/fs facilities) are embedded as
parameters carrying the outcome the collaborator produces for the given
input, exactly as the specification directs (they are explicitly
excluded from the core and treated as black boxes with narrow contracts).
-/

namespace SvgMaker

/-- A single-character string holding an apostrophe (used by the error and
warning message templates of `validateSvgContent`). -/
def apos : String := String.mk [Char.ofNat 39]

/- The labeled tree produced by the XML parser collaborator
(fast-xml-parser with ignoreAttributes false, attributeNamePrefix ""):
a JavaScript value that is either a primitive (string/number/boolean —
typeof is not "object"), an object with ordered string keys, or an
array. Mutual inductive so that all recursion over it is structural. -/
mutual
inductive JVal where
  | prim (s : String)
  | obj (fields : JFields)
  | arr (elems : JList)
deriving DecidableEq

inductive JFields where
  | nil
  | cons (k : String) (v : JVal) (rest : JFields)
deriving DecidableEq

inductive JList where
  | nil
  | cons (v : JVal) (rest : JList)
deriving DecidableEq
end

/-- JavaScript `typeof x === "object"`: true for objects and arrays,
false for primitives. -/
def isObjLike : JVal → Bool
  | .prim _ => false
  | .obj _ => true
  | .arr _ => true

/-- JavaScript `s.startsWith(p)`, embedded over the character list. -/
def strStartsWith (s p : String) : Bool :=
  p.data.isPrefixOf s.data

/-- JavaScript `s.endsWith(p)`, embedded over the character list. -/
def strEndsWith (s p : String) : Bool :=
  p.data.isSuffixOf s.data

/-- JavaScript `s.toLowerCase()` (ASCII case, as used by the extension
check of the source), embedded over the character list. -/
def strToLower (s : String) : String :=
  String.mk (s.data.map Char.toLower)

/-- The operation `key.replace` with the regex `^.*:` : the greedy regex removes
everything up to and including the last colon, so this returns the part
of the string after the last colon (the whole string when there is no
colon). -/
def stripNs (s : String) : String :=
  String.mk ((s.data.reverse.takeWhile (fun c => c != ':')).reverse)

/-- The warning message template of `checkTags`:
`Non-standard SVG tag found: <tag>` (tag quoted in apostrophes in the
actual message) with `<tag>` the stripped name. -/
def warnMsg (k : String) : String :=
  "Non-standard SVG tag found: " ++ apos ++ stripNs k ++ apos

/-- The contribution of one key to the warnings of `checkTags` (the body of
the `if` guarding `warnings.push`): a warning is pushed when the stripped
tag name is not `svg`, is not in the vocabulary, the raw key does not
start with `@_`, and the raw key is not `#text`. -/
def warnKey (vocab : List String) (k : String) : List String :=
  let tagName := stripNs k
  if tagName != "svg" && !(vocab.contains tagName)
      && !(strStartsWith k "@_") && k != "#text" then
    [warnMsg k]
  else
    []

/- The recursive walk checkTags of validateSvgContent: iterate the
keys of the current object (for key in obj); whenever the value is
object-like (typeof obj[key] === "object"), possibly push a warning for
the key and recurse into the value. Iterating an array visits its indices
as stringified keys. Primitive-valued keys are skipped entirely. -/
mutual
def checkTags (vocab : List String) : JVal → List String
  | .prim _ => []
  | .obj fields => checkFields vocab fields
  | .arr elems => checkElems vocab 0 elems

def checkFields (vocab : List String) : JFields → List String
  | .nil => []
  | .cons k v rest =>
    (if isObjLike v then warnKey vocab k ++ checkTags vocab v else [])
      ++ checkFields vocab rest

def checkElems (vocab : List String) (i : Nat) : JList → List String
  | .nil => []
  | .cons v rest =>
    (if isObjLike v then warnKey vocab (toString i) ++ checkTags vocab v else [])
      ++ checkElems vocab (i + 1) rest
end

/-- Modelled from the spec: the Known Tag Vocabulary (`SVG_TAGS`, imported
from `./svg_standards.js`, a file not present under src) — "a fixed set of
standard element names (e.g. `svg`, `path`, `circle`, `g`, `defs`, …)
loaded once at startup; read-only". The theorems below are stated for an
arbitrary vocabulary wherever possible; this concrete set is used only to
instantiate counterexamples and witnesses. -/
def SVG_TAGS : List String :=
  ["svg", "path", "circle", "rect", "g", "defs", "line", "polyline",
   "polygon", "ellipse", "text", "use", "symbol", "marker", "clipPath",
   "mask", "pattern", "image", "style", "title", "desc",
   "linearGradient", "radialGradient", "stop", "filter", "tspan",
   "animate", "foreignObject", "switch", "view"]

/-- The validation verdict `{ valid, errors, warnings }`. -/
structure Verdict where
  valid : Bool
  errors : List String
  warnings : List String
deriving DecidableEq

/-- The root-error message template:
`Root element must be <svg>, found <tag-or-none>` (both quoted in
apostrophes in the actual message; the raw, unstripped root key, or
`none` when no root key was found). -/
def rootErrMsg (t : String) : String :=
  "Root element must be " ++ apos ++ "svg" ++ apos ++ ", found " ++ apos ++ t ++ apos

/-- `rootKeys.find(key => key !== "?xml")`: the first root-level key that
is not the XML declaration pseudo-key. -/
def findRootTag : JFields → Option String
  | .nil => none
  | .cons k _ rest => if k != "?xml" then some k else findRootTag rest

/-- The SVG structural validator `validateSvgContent`. The two
collaborators are embedded as functions from the source text to the
outcome they produce on it: `xmlValidate` is `XMLValidator.validate`
(`none` = well-formed; `some msg` = the syntax-fault message, already
folded with the fallback `err?.msg || "Invalid XML"` of the code), and `parse`
is `XMLParser.parse` (`.error m` when the parser throws, with `m` the
thrown message; `.ok fields` the root-level key/value pairs in insertion
order). Everything after the collaborator calls follows the source:
fail-fast on ill-formed XML; root check over the first non-`?xml` key
with namespace stripping; `checkTags` walk for warnings;
`valid = errors.length === 0`. -/
def validateSvgContent (vocab : List String)
    (xmlValidate : String → Option String)
    (parse : String → Except String JFields)
    (svgCode : String) : Verdict :=
  match xmlValidate svgCode with
  | some msg => ⟨false, ["XML Syntax Error: " ++ msg], []⟩
  | none =>
    match parse svgCode with
    | .error m => ⟨false, ["Parsing error: " ++ m], []⟩
    | .ok fields =>
      let errors :=
        match findRootTag fields with
        | none => [rootErrMsg "none"]
        | some t => if stripNs t != "svg" then [rootErrMsg t] else []
      ⟨errors.isEmpty, errors, checkTags vocab (.obj fields)⟩

/-- One item of a response envelope: a text item, or a base64 image item
with its media type. -/
inductive ContentItem where
  | text (s : String)
  | image (data : String) (mimeType : String)
deriving DecidableEq

/-- The observable outcome of one handler invocation: either a hard
failure (a thrown fault propagated out of the handler, carrying its
message) or a response envelope (content items plus the `isError`
flag — `false` for the success envelopes, which carry no flag). -/
inductive ToolResult where
  | thrown (msg : String)
  | envelope (content : List ContentItem) (isError : Bool)
deriving DecidableEq

/-- Whether a result contains an image content item. -/
def hasImageItem : ToolResult → Bool
  | .thrown _ => false
  | .envelope content _ =>
    content.any fun item =>
      match item with
      | .image _ _ => true
      | .text _ => false

/-- Whether a result is a response envelope (as opposed to a thrown,
propagated fault). -/
def isEnvelope : ToolResult → Bool
  | .thrown _ => false
  | .envelope _ _ => true

/-- The `render_svg` handler, given the precomputed validation verdict
and the outcome of the rasterization collaborator (`sharp(...).png().toBuffer()`:
`.ok data` the base64 PNG, `.error m` the thrown message). When the
verdict is invalid the handler throws `Invalid SVG: <errors joined by ; >`
before touching the rasterizer; when rasterization throws, the catch block
re-throws a new fault `Error rendering SVG: <msg>` (it does not return an
`isError` envelope). -/
def render_svg (validation : Verdict) (rasterize : Except String String) : ToolResult :=
  if validation.valid then
    match rasterize with
    | .ok png => .envelope [.image png "image/png"] false
    | .error m => .thrown ("Error rendering SVG: " ++ m)
  else
    .thrown ("Invalid SVG: " ++ String.intercalate "; " validation.errors)

/-- The full `render_svg` pipeline: run `validateSvgContent` on the
source, then the handler body. -/
def render_svg_full (vocab : List String)
    (xmlValidate : String → Option String)
    (parse : String → Except String JFields)
    (svgCode : String) (rasterize : Except String String) : ToolResult :=
  render_svg (validateSvgContent vocab xmlValidate parse svgCode) rasterize

/-- The `optimize_svg` handler, given the outcome of the SVGO collaborator:
success wraps the minified text, failure is caught and becomes an
`isError` envelope `Error optimizing SVG: <msg>`. -/
def optimize_svg (optimizeRes : Except String String) : ToolResult :=
  match optimizeRes with
  | .ok d => .envelope [.text d] false
  | .error m => .envelope [.text ("Error optimizing SVG: " ++ m)] true

/-- The `format_svg` handler, given the outcome of the xml-formatter
collaborator: success wraps the formatted text, failure is caught and becomes
an `isError` envelope `Error formatting SVG: <msg>`. -/
def format_svg (fmtRes : Except String String) : ToolResult :=
  match fmtRes with
  | .ok d => .envelope [.text d] false
  | .error m => .envelope [.text ("Error formatting SVG: " ++ m)] true

/-- The extension fixup in `save_svg`:
`if (!filename.toLowerCase().endsWith(".svg")) filename += ".svg"`. -/
def appendSvgExt (filename : String) : String :=
  if strEndsWith (strToLower filename) ".svg" then filename else filename ++ ".svg"

/-- Model of the Node `path.resolve(cwd, f)` collaborator for the cases
exercised here: an absolute filename is returned as is, a relative one is
joined onto the working directory with a separator. -/
def resolvePath (cwd f : String) : String :=
  if strStartsWith f "/" then f else cwd ++ "/" ++ f

/-- The observable outcome of one `save_svg` invocation: the returned
envelope, the directory passed to `fs.mkdir(..., { recursive: true })`,
and the (path, contents) pair passed to `fs.writeFile`. -/
structure SaveOutcome where
  result : ToolResult
  mkdirArg : Option String
  written : Option (String × String)
deriving DecidableEq

/-- The `save_svg` handler. Collaborator outcomes: `optimizeRes` is the
outcome of the SVGO call (consulted only when `shouldOptimize` is true; its
failure is caught by the inner try and the original source is kept),
`cwd` is the process working directory used by `path.resolve`, `dirname`
is Node `path.dirname`, and `fsErr` is `some m` when `fs.mkdir` or
`fs.writeFile` rejects with message `m` (caught by the outer try into an
`isError` envelope `Error saving SVG: <msg>`). -/
def save_svg (svg_code filename : String) (shouldOptimize : Bool)
    (optimizeRes : Except String String) (cwd : String)
    (dirname : String → String) (fsErr : Option String) : SaveOutcome :=
  let content :=
    if shouldOptimize then
      match optimizeRes with
      | .ok d => d
      | .error _ => svg_code
    else svg_code
  let finalPath := resolvePath cwd (appendSvgExt filename)
  match fsErr with
  | some m =>
    { result := .envelope [.text ("Error saving SVG: " ++ m)] true,
      mkdirArg := none, written := none }
  | none =>
    { result := .envelope [.text finalPath] false,
      mkdirArg := some (dirname finalPath),
      written := some (finalPath, content) }

/-- The standard base64 alphabet used by `Buffer.toString("base64")`. -/
def b64Alphabet : List Char :=
  "ABCDEFGHIJKLMNOPQRSTUVWXYZabcdefghijklmnopqrstuvwxyz0123456789+/".data

/-- The base64 digit for a 6-bit value. -/
def b64Char (i : Nat) : Char := b64Alphabet.getD i 'A'

/-- The 6-bit value of a base64 digit (the list length, 64, if absent). -/
def b64Idx (c : Char) : Nat := b64Alphabet.indexOf c

/-- The padding character. -/
def b64Pad : Char := Char.ofNat 61

/-- RFC 4648 base64 encoding of a byte sequence (bytes as `Nat < 256`),
with `=` padding — the encoding performed by
`Buffer.from(svg_code).toString("base64")`. -/
def b64Encode : List Nat → List Char
  | a :: b :: c :: rest =>
    b64Char (a / 4) :: b64Char (a % 4 * 16 + b / 16)
      :: b64Char (b % 16 * 4 + c / 64) :: b64Char (c % 64) :: b64Encode rest
  | [a, b] =>
    [b64Char (a / 4), b64Char (a % 4 * 16 + b / 16), b64Char (b % 16 * 4), b64Pad]
  | [a] =>
    [b64Char (a / 4), b64Char (a % 4 * 16), b64Pad, b64Pad]
  | [] => []

/-- Base64 decoding of a padded digit stream back to bytes. -/
def b64Decode : List Char → List Nat
  | c1 :: c2 :: c3 :: c4 :: rest =>
    if c3 = b64Pad then
      [b64Idx c1 * 4 + b64Idx c2 / 16]
    else if c4 = b64Pad then
      [b64Idx c1 * 4 + b64Idx c2 / 16, b64Idx c2 % 16 * 16 + b64Idx c3 / 4]
    else
      (b64Idx c1 * 4 + b64Idx c2 / 16)
        :: (b64Idx c2 % 16 * 16 + b64Idx c3 / 4)
        :: (b64Idx c3 % 4 * 64 + b64Idx c4) :: b64Decode rest
  | _ => []

/-- The UTF-8 bytes of a string (what `Buffer.from(s)` holds), as `Nat`s. -/
def utf8Bytes (s : String) : List Nat :=
  s.toUTF8.toList.map (fun b => b.toNat)

/-- The data-URI text produced by the `svg_to_data_uri` handler:
the fixed scheme head followed by the base64 encoding of the UTF-8
bytes of the source. -/
def dataUriText (svg_code : String) : String :=
  "data:image/svg+xml;base64," ++ String.mk (b64Encode (utf8Bytes svg_code))

/-- The `svg_to_data_uri` handler: wraps the data URI in a success
envelope (the encoding itself cannot fail, so the catch arm is dead). -/
def svg_to_data_uri (svg_code : String) : ToolResult :=
  .envelope [.text (dataUriText svg_code)] false

/-- Modelled from the spec: the Request Validator (spec section 4.2) is
implemented by the external MCP SDK / zod machinery, not by code under
src; only the per-tool parameter declarations (the zod `inputSchema`
objects) live in src. The semantic type of one declared parameter. -/
inductive ParamType where
  | str
  | num
  | bool
deriving DecidableEq

/-- A supplied argument value with its semantic type. -/
inductive Value where
  | vstr (s : String)
  | vnum (n : Int)
  | vbool (b : Bool)
deriving DecidableEq

/-- The semantic type of a value. -/
def typeOfVal : Value → ParamType
  | .vstr _ => .str
  | .vnum _ => .num
  | .vbool _ => .bool

/-- One declared parameter of the input contract of an operation: name,
semantic type, whether it is required, and the declared default (if
any) for an optional parameter. -/
structure ParamSpec where
  name : String
  type : ParamType
  required : Bool
  dflt : Option Value
deriving DecidableEq

/-- The dispatch-level error taxonomy of the Request Validator. -/
inductive DispatchError where
  | MissingParameter (name : String)
  | TypeMismatch (name : String)
deriving DecidableEq

/-- The argument supplied for a name, if any (first binding wins). -/
def lookupArg (args : List (String × Value)) (n : String) : Option Value :=
  (args.find? (fun p => p.1 = n)).map Prod.snd

/-- Modelled from the spec: "for each declared parameter: if required and
absent, fails with MissingParameter; if present but of the wrong semantic
type, fails with TypeMismatch; if optional and absent, substitute the
declared default (if any) or omit. Extra unrecognized keys in the
supplied mapping are ignored." -/
def validateArgs (contract : List ParamSpec) (args : List (String × Value)) :
    Except DispatchError (List (String × Value)) :=
  match contract with
  | [] => .ok []
  | p :: rest =>
    match lookupArg args p.name with
    | some v =>
      if typeOfVal v = p.type then
        (validateArgs rest args).map (fun tail => (p.name, v) :: tail)
      else
        .error (.TypeMismatch p.name)
    | none =>
      if p.required then
        .error (.MissingParameter p.name)
      else
        match p.dflt with
        | some d => (validateArgs rest args).map (fun tail => (p.name, d) :: tail)
        | none => validateArgs rest args

/-- The outcome of one dispatch: a dispatch-level failure surfaced before
the handler runs, or the own result of the handler. -/
inductive DispatchResult where
  | dispatchErr (e : DispatchError)
  | handled (r : ToolResult)
deriving DecidableEq

/-- Modelled from the spec: dispatch checks the supplied arguments
against the declared contract of the operation and invokes the handler only
when validation succeeds. -/
def dispatch (contract : List ParamSpec)
    (handler : List (String × Value) → ToolResult)
    (args : List (String × Value)) : DispatchResult :=
  match validateArgs contract args with
  | .error e => .dispatchErr e
  | .ok ps => .handled (handler ps)

/-- The declared input contract of `save_svg` (from the zod
`inputSchema` in src): `svg_code` required string, `filename` required
string, `optimize` optional boolean with default `true`. -/
def save_svg_contract : List ParamSpec :=
  [⟨"svg_code", .str, true, none⟩,
   ⟨"filename", .str, true, none⟩,
   ⟨"optimize", .bool, false, some (.vbool true)⟩]

/-- The declared parameter names of a contract. -/
def contractNames (contract : List ParamSpec) : List String :=
  contract.map (fun p => p.name)

/-- Membership of a key/value binding in the field list of an object. -/
inductive FieldMem (k : String) (v : JVal) : JFields → Prop
  | head (rest : JFields) : FieldMem k v (.cons k v rest)
  | tail (k2 : String) (v2 : JVal) (rest : JFields) :
      FieldMem k v rest → FieldMem k v (.cons k2 v2 rest)

/-- Membership of a value in the element list of an array. -/
inductive ElemMem (v : JVal) : JList → Prop
  | head (rest : JList) : ElemMem v (.cons v rest)
  | tail (v2 : JVal) (rest : JList) : ElemMem v rest → ElemMem v (.cons v2 rest)

/-- `k` occurs somewhere in the tree as the key of an object field,
at any depth (through objects and arrays alike), with no constraint on
the shape of its value. This is how the reading "contains an element
named k" of the claim lands on the parsed tree. -/
inductive HasKey (k : String) : JVal → Prop
  | here (v : JVal) (fields : JFields) :
      FieldMem k v fields → HasKey k (.obj fields)
  | in_obj (k2 : String) (v : JVal) (fields : JFields) :
      FieldMem k2 v fields → HasKey k v → HasKey k (.obj fields)
  | in_arr (v : JVal) (elems : JList) :
      ElemMem v elems → HasKey k v → HasKey k (.arr elems)

/-- `k` occurs somewhere in the tree as the key of an object field whose
value is object-like, reachable through object-like values only — the
occurrences the `checkTags` walk actually reaches and warns about. -/
inductive HasElemKey (k : String) : JVal → Prop
  | here (v : JVal) (fields : JFields) :
      FieldMem k v fields → isObjLike v = true → HasElemKey k (.obj fields)
  | in_obj (k2 : String) (v : JVal) (fields : JFields) :
      FieldMem k2 v fields → isObjLike v = true →
      HasElemKey k v → HasElemKey k (.obj fields)
  | in_arr (v : JVal) (elems : JList) :
      ElemMem v elems → isObjLike v = true →
      HasElemKey k v → HasElemKey k (.arr elems)

/-- When every condition of the warning guard holds, the contribution
of the key is exactly its warning message. -/
theorem warnKey_eq_of_conditions (vocab : List String) (k : String)
    (h1 : stripNs k ≠ "svg") (h2 : vocab.contains (stripNs k) = false)
    (h3 : strStartsWith k "@_" = false) (h4 : k ≠ "#text") :
    warnKey vocab k = [warnMsg k] := by
  unfold warnKey
  rw [if_pos]
  simp only [h2, h3]
  simp [h1, h4]

/-- A warning contributed by a field with an object-like value is in the
output of `checkFields`. -/
theorem mem_checkFields_of_key (vocab : List String) (k : String) (v : JVal)
    (fields : JFields) (hm : FieldMem k v fields) (ho : isObjLike v = true)
    (x : String) (hx : x ∈ warnKey vocab k) : x ∈ checkFields vocab fields := by
  induction hm with
  | head rest =>
    simp only [checkFields, ho, if_true, List.mem_append]
    exact Or.inl (Or.inl hx)
  | tail k2 v2 rest _ ih =>
    simp only [checkFields, List.mem_append]
    exact Or.inr ih

/-- Anything in the recursive walk of an object-like field value is in
the output of `checkFields`. -/
theorem mem_checkFields_of_sub (vocab : List String) (k : String) (v : JVal)
    (fields : JFields) (hm : FieldMem k v fields) (ho : isObjLike v = true)
    (x : String) (hx : x ∈ checkTags vocab v) : x ∈ checkFields vocab fields := by
  induction hm with
  | head rest =>
    simp only [checkFields, ho, if_true, List.mem_append]
    exact Or.inl (Or.inr hx)
  | tail k2 v2 rest _ ih =>
    simp only [checkFields, List.mem_append]
    exact Or.inr ih

/-- Anything in the recursive walk of an object-like array element is in
the output of `checkElems`, whatever the starting index. -/
theorem mem_checkElems_of_sub (vocab : List String) (v : JVal)
    (elems : JList) (hm : ElemMem v elems) (ho : isObjLike v = true)
    (x : String) (hx : x ∈ checkTags vocab v) :
    ∀ i : Nat, x ∈ checkElems vocab i elems := by
  induction hm with
  | head rest =>
    intro i
    simp only [checkElems, ho, if_true, List.mem_append]
    exact Or.inl (Or.inr hx)
  | tail v2 rest _ ih =>
    intro i
    simp only [checkElems, List.mem_append]
    exact Or.inr (ih (i + 1))

/-- The walk warns about every reachable element key that meets the
warning guard: if `k` occurs as the key of an object-like value (at any
depth, through object-like values), and the stripped name is neither
`svg` nor in the vocabulary, and the raw key is neither attribute-like
nor the text marker, then the warning message for `k` is in the output
of `checkTags`. -/
theorem warnMsg_mem_checkTags (vocab : List String) (k : String) (t : JVal)
    (h : HasElemKey k t)
    (h1 : stripNs k ≠ "svg") (h2 : vocab.contains (stripNs k) = false)
    (h3 : strStartsWith k "@_" = false) (h4 : k ≠ "#text") :
    warnMsg k ∈ checkTags vocab t := by
  induction h with
  | here v fields hm ho =>
    show warnMsg k ∈ checkFields vocab fields
    refine mem_checkFields_of_key vocab k v fields hm ho _ ?_
    rw [warnKey_eq_of_conditions vocab k h1 h2 h3 h4]
    exact List.mem_singleton.mpr rfl
  | in_obj k2 v fields hm ho _ ih =>
    exact mem_checkFields_of_sub vocab k2 v fields hm ho _ ih
  | in_arr v elems hm ho _ ih =>
    exact mem_checkElems_of_sub vocab v elems hm ho _ ih 0

/-- Decoding a base64 digit produced for a 6-bit value recovers the
value. -/
theorem b64Idx_b64Char : ∀ i : Nat, i < 64 → b64Idx (b64Char i) = i := by decide

/-- A base64 digit for a 6-bit value is never the padding character. -/
theorem b64Char_ne_pad : ∀ i : Nat, i < 64 → b64Char i ≠ b64Pad := by decide

/-- Base64 decoding inverts base64 encoding on byte sequences. -/
theorem b64_roundtrip : ∀ bs : List Nat, (∀ x ∈ bs, x < 256) →
    b64Decode (b64Encode bs) = bs
  | [] => fun _ => rfl
  | [a] => fun h => by
    have ha : a < 256 := h a (by simp)
    have h1 : a / 4 < 64 := by omega
    have h2 : a % 4 * 16 < 64 := by omega
    simp only [b64Encode, b64Decode, if_pos rfl,
      b64Idx_b64Char _ h1, b64Idx_b64Char _ h2]
    have : a / 4 * 4 + a % 4 * 16 / 16 = a := by omega
    rw [this]
    simp
  | [a, b] => fun h => by
    have ha : a < 256 := h a (by simp)
    have hb : b < 256 := h b (by simp)
    have h1 : a / 4 < 64 := by omega
    have h2 : a % 4 * 16 + b / 16 < 64 := by omega
    have h3 : b % 16 * 4 < 64 := by omega
    simp only [b64Encode, b64Decode, if_neg (b64Char_ne_pad _ h3), if_pos rfl,
      b64Idx_b64Char _ h1, b64Idx_b64Char _ h2, b64Idx_b64Char _ h3]
    have e1 : (a / 4) * 4 + (a % 4 * 16 + b / 16) / 16 = a := by omega
    have e2 : (a % 4 * 16 + b / 16) % 16 * 16 + b % 16 * 4 / 4 = b := by omega
    rw [e1, e2]
    simp
  | a :: b :: c :: rest => fun h => by
    have ha : a < 256 := h a (by simp)
    have hb : b < 256 := h b (by simp)
    have hc : c < 256 := h c (by simp)
    have h1 : a / 4 < 64 := by omega
    have h2 : a % 4 * 16 + b / 16 < 64 := by omega
    have h3 : b % 16 * 4 + c / 64 < 64 := by omega
    have h4 : c % 64 < 64 := by omega
    have ih := b64_roundtrip rest (fun x hx => h x (by simp [hx]))
    simp only [b64Encode, b64Decode, if_neg (b64Char_ne_pad _ h3),
      if_neg (b64Char_ne_pad _ h4), b64Idx_b64Char _ h1, b64Idx_b64Char _ h2,
      b64Idx_b64Char _ h3, b64Idx_b64Char _ h4, ih]
    have e1 : (a / 4) * 4 + (a % 4 * 16 + b / 16) / 16 = a := by omega
    have e2 : (a % 4 * 16 + b / 16) % 16 * 16 + (b % 16 * 4 + c / 64) / 4 = b := by omega
    have e3 : (b % 16 * 4 + c / 64) % 4 * 64 + c % 64 = c := by omega
    rw [e1, e2, e3]

/-- Every byte of the UTF-8 encoding of a string is below 256. -/
theorem utf8Bytes_lt (s : String) : ∀ x ∈ utf8Bytes s, x < 256 := by
  intro x hx
  simp only [utf8Bytes, List.mem_map] at hx
  obtain ⟨b, _, rfl⟩ := hx
  exact b.toNat_lt

/-- Looking up a name that none of the extra bindings carry is unaffected
by appending those bindings. -/
theorem lookupArg_append (args extras : List (String × Value)) (n : String)
    (h : ∀ e ∈ extras, e.1 ≠ n) :
    lookupArg (args ++ extras) n = lookupArg args n := by
  unfold lookupArg
  rw [List.find?_append]
  have hnone : extras.find? (fun p => p.1 = n) = none := by
    rw [List.find?_eq_none]
    intro e he
    simp [h e he]
  rw [hnone]
  cases args.find? (fun p => p.1 = n) <;> rfl

/-- Extra bindings whose names are not declared in the contract never
change the outcome of request validation (in particular they never cause
a failure). -/
theorem validateArgs_ignores_extras (contract : List ParamSpec)
    (args extras : List (String × Value))
    (h : ∀ e ∈ extras, e.1 ∉ contractNames contract) :
    validateArgs contract (args ++ extras) = validateArgs contract args := by
  induction contract with
  | nil => rfl
  | cons p rest ih =>
    have hp : lookupArg (args ++ extras) p.name = lookupArg args p.name := by
      refine lookupArg_append args extras p.name (fun e he heq => ?_)
      exact h e he (by simp [contractNames, heq])
    have hih := ih (fun e he hm => h e he (by simp [contractNames] at hm ⊢; exact Or.inr hm))
    unfold validateArgs
    rw [hp, hih]

/-- The tree fast-xml-parser produces for `<svg><customShape/>` followed
by `</svg>`: a childless, attribute-less element parses to the empty
string, a primitive, not an object. -/
def noWarnTree : JFields :=
  .cons "svg" (.obj (.cons "customShape" (.prim "") .nil)) .nil

/-- C1 (counterexample): the claim fails as stated. In the source
`<svg><customShape/></svg>` — well-formed, root `svg`, containing the
element `customShape` whose stripped name is neither `svg` nor in the
Known Tag Vocabulary — the parser collaborator yields `noWarnTree`, and
`validateSvgContent` returns `valid = true` with an EMPTY warnings list:
no warning mentioning `customShape` is emitted, because `checkTags` only
inspects keys whose value is object-like and a childless, attribute-less
element parses to a primitive. -/
theorem c1_counterexample :
    HasKey "customShape" (.obj noWarnTree) ∧
    stripNs "customShape" = "customShape" ∧
    SVG_TAGS.contains "customShape" = false ∧
    (validateSvgContent SVG_TAGS (fun _ => none) (fun _ => .ok noWarnTree)
      "<svg><customShape/></svg>").valid = true ∧
    (validateSvgContent SVG_TAGS (fun _ => none) (fun _ => .ok noWarnTree)
      "<svg><customShape/></svg>").warnings = [] := by
  refine ⟨?_, by decide, by decide, by decide, by decide⟩
  exact HasKey.in_obj "svg" (.obj (.cons "customShape" (.prim "") .nil)) _
    (FieldMem.head _) (HasKey.here (.prim "") _ (FieldMem.head _))

/-- C1 (amended): for every well-formed source whose root is `svg`,
every element key reachable by the walk — one whose parsed value is an
object or array, i.e. the element has at least one attribute or child —
with stripped tag name neither `svg` nor in the vocabulary (and the raw
key neither attribute-like nor the text marker) produces the warning
`Non-standard SVG tag found: <tag>` (quoted in the actual message) in
the returned verdict, at any depth, while `valid` stays `true`. -/
theorem c1_nonstandard_tag_warned (vocab : List String)
    (xmlValidate : String → Option String)
    (parse : String → Except String JFields)
    (s : String) (fields : JFields) (k r : String)
    (hxv : xmlValidate s = none) (hp : parse s = .ok fields)
    (hroot : findRootTag fields = some r) (hsvg : stripNs r = "svg")
    (hk : HasElemKey k (.obj fields))
    (h1 : stripNs k ≠ "svg") (h2 : vocab.contains (stripNs k) = false)
    (h3 : strStartsWith k "@_" = false) (h4 : k ≠ "#text") :
    (validateSvgContent vocab xmlValidate parse s).valid = true ∧
    warnMsg k ∈ (validateSvgContent vocab xmlValidate parse s).warnings := by
  have hres : validateSvgContent vocab xmlValidate parse s =
      ⟨true, [], checkTags vocab (.obj fields)⟩ := by
    simp [validateSvgContent, hxv, hp, hroot, hsvg]
  rw [hres]
  exact ⟨rfl, warnMsg_mem_checkTags vocab k _ hk h1 h2 h3 h4⟩

/-- The tree fast-xml-parser produces for
`<svg><customShape r="5"/></svg>`: the element carries an attribute, so
its parsed value is an object and the walk reaches it. -/
def warnTree : JFields :=
  .cons "svg" (.obj (.cons "customShape" (.obj (.cons "r" (.prim "5") .nil)) .nil)) .nil

/-- C1 (witness): the amended theorem applied at a concrete input. -/
theorem c1_witness :
    (validateSvgContent SVG_TAGS (fun _ => none) (fun _ => .ok warnTree)
      "<svg><customShape r=5/></svg>").valid = true ∧
    warnMsg "customShape" ∈
      (validateSvgContent SVG_TAGS (fun _ => none) (fun _ => .ok warnTree)
        "<svg><customShape r=5/></svg>").warnings :=
  c1_nonstandard_tag_warned SVG_TAGS (fun _ => none) (fun _ => .ok warnTree)
    "<svg><customShape r=5/></svg>" warnTree "customShape" "svg"
    rfl rfl (by decide) (by decide)
    (HasElemKey.in_obj "svg" (.obj (.cons "customShape" (.obj (.cons "r" (.prim "5") .nil)) .nil)) _
      (FieldMem.head _) rfl
      (HasElemKey.here (.obj (.cons "r" (.prim "5") .nil)) _ (FieldMem.head _) rfl))
    (by decide) (by decide) (by decide) (by decide)

/-- C2: for every input on which the XML well-formedness collaborator
reports a fault, `validateSvgContent` returns immediately with
`valid = false`, exactly one error (`XML Syntax Error: <msg>`), and no
warnings; the result is the same whatever the parser collaborator or the
tag vocabulary would have produced, so no root-tag or tag-vocabulary
check is performed. -/
theorem c2_malformed_fail_fast (vocab : List String)
    (xmlValidate : String → Option String)
    (parse : String → Except String JFields)
    (s msg : String) (h : xmlValidate s = some msg) :
    validateSvgContent vocab xmlValidate parse s =
      ⟨false, ["XML Syntax Error: " ++ msg], []⟩ := by
  unfold validateSvgContent
  rw [h]

/-- C2 (witness): the theorem applied at a concrete malformed input. -/
theorem c2_witness :
    validateSvgContent SVG_TAGS (fun _ => some "unexpected end of input")
      (fun _ => .error "ignored") "<svg><rect></svg>" =
      ⟨false, ["XML Syntax Error: " ++ "unexpected end of input"], []⟩ :=
  c2_malformed_fail_fast SVG_TAGS (fun _ => some "unexpected end of input")
    (fun _ => .error "ignored") "<svg><rect></svg>" "unexpected end of input" rfl

/-- C3: on well-formed input, the root is the first parsed root-level key
other than the `?xml` declaration key; the stripped root name is compared
case-sensitively against `svg`; a missing or non-`svg` root appends
exactly the error `Root element must be <svg>, found <tag-or-none>`
(quoting as in the template; raw tag, or the word `none`); the check
does not short-circuit — the warnings
walk still runs either way. `ns:svg` strips to `svg` (accepted) while
`Svg` strips to `Svg` (rejected). -/
theorem c3_root_check (vocab : List String)
    (xmlValidate : String → Option String)
    (parse : String → Except String JFields)
    (s : String) (fields : JFields)
    (hxv : xmlValidate s = none) (hp : parse s = .ok fields) :
    ((validateSvgContent vocab xmlValidate parse s).warnings
        = checkTags vocab (.obj fields)) ∧
    (∀ t, findRootTag fields = some t → stripNs t = "svg" →
      (validateSvgContent vocab xmlValidate parse s).errors = []) ∧
    (∀ t, findRootTag fields = some t → stripNs t ≠ "svg" →
      (validateSvgContent vocab xmlValidate parse s).errors = [rootErrMsg t]) ∧
    (findRootTag fields = none →
      (validateSvgContent vocab xmlValidate parse s).errors = [rootErrMsg "none"]) ∧
    stripNs "ns:svg" = "svg" ∧ stripNs "Svg" ≠ "svg" := by
  refine ⟨?_, ?_, ?_, ?_, by decide, by decide⟩
  · simp [validateSvgContent, hxv, hp]
  · intro t ht hsvg
    simp [validateSvgContent, hxv, hp, ht, hsvg]
  · intro t ht hsvg
    simp [validateSvgContent, hxv, hp, ht, hsvg]
  · intro hnone
    simp [validateSvgContent, hxv, hp, hnone]

/-- C3 (witness): the theorem applied at a concrete input whose root
keys are the `?xml` declaration followed by a namespaced `ns:svg` root:
the declaration key is skipped, the prefix is stripped, and no root
error is produced. -/
theorem c3_witness :
    (validateSvgContent SVG_TAGS (fun _ => none)
      (fun _ => .ok (.cons "?xml" (.obj .nil) (.cons "ns:svg" (.obj .nil) .nil)))
      "<?xml version=1.0?><ns:svg></ns:svg>").errors = [] :=
  (c3_root_check SVG_TAGS (fun _ => none)
    (fun _ => .ok (.cons "?xml" (.obj .nil) (.cons "ns:svg" (.obj .nil) .nil)))
    "<?xml version=1.0?><ns:svg></ns:svg>"
    (.cons "?xml" (.obj .nil) (.cons "ns:svg" (.obj .nil) .nil))
    rfl rfl).2.1 "ns:svg" (by decide) (by decide)

/-- C4: for every input and every collaborator outcome, the verdict
satisfies `valid = true` exactly when `errors` is empty, and `valid` does
not depend on the tag vocabulary — the sole source of warnings — so the
warnings never influence validity. -/
theorem c4_valid_iff_no_errors (vocab vocab2 : List String)
    (xmlValidate : String → Option String)
    (parse : String → Except String JFields) (s : String) :
    ((validateSvgContent vocab xmlValidate parse s).valid = true ↔
      (validateSvgContent vocab xmlValidate parse s).errors = []) ∧
    (validateSvgContent vocab xmlValidate parse s).valid
      = (validateSvgContent vocab2 xmlValidate parse s).valid := by
  unfold validateSvgContent
  cases xmlValidate s with
  | some msg => simp
  | none =>
    cases parse s with
    | error m => simp
    | ok fields =>
      cases hr : findRootTag fields with
      | none => simp
      | some t =>
        by_cases hs : (stripNs t != "svg") = true <;> simp [hs, List.isEmpty_iff]

/-- C5: whenever the structural precondition fails
(`validateSvgContent` yields `valid = false`), the `render_svg` handler
throws `Invalid SVG: <errors joined by ; >` — a hard, propagated fault,
not an `isError` envelope — whatever the rasterizer would have returned
(so rasterization is never attempted), and the result carries no image
content item. -/
theorem c5_render_precondition (vocab : List String)
    (xmlValidate : String → Option String)
    (parse : String → Except String JFields)
    (s : String) (rasterize : Except String String)
    (h : (validateSvgContent vocab xmlValidate parse s).valid = false) :
    render_svg_full vocab xmlValidate parse s rasterize =
      .thrown ("Invalid SVG: " ++ String.intercalate "; "
        (validateSvgContent vocab xmlValidate parse s).errors) ∧
    isEnvelope (render_svg_full vocab xmlValidate parse s rasterize) = false ∧
    hasImageItem (render_svg_full vocab xmlValidate parse s rasterize) = false := by
  unfold render_svg_full render_svg
  rw [h]
  exact ⟨rfl, rfl, rfl⟩

/-- C5 (witness): the theorem applied at a concrete structurally invalid
input (root `notsvg`). -/
theorem c5_witness :
    render_svg_full SVG_TAGS (fun _ => none)
      (fun _ => .ok (.cons "notsvg" (.obj .nil) .nil)) "<notsvg/>"
      (.ok "png-bytes") =
      .thrown ("Invalid SVG: " ++ String.intercalate "; "
        (validateSvgContent SVG_TAGS (fun _ => none)
          (fun _ => .ok (.cons "notsvg" (.obj .nil) .nil)) "<notsvg/>").errors) ∧
    isEnvelope (render_svg_full SVG_TAGS (fun _ => none)
      (fun _ => .ok (.cons "notsvg" (.obj .nil) .nil)) "<notsvg/>"
      (.ok "png-bytes")) = false ∧
    hasImageItem (render_svg_full SVG_TAGS (fun _ => none)
      (fun _ => .ok (.cons "notsvg" (.obj .nil) .nil)) "<notsvg/>"
      (.ok "png-bytes")) = false :=
  c5_render_precondition SVG_TAGS (fun _ => none)
    (fun _ => .ok (.cons "notsvg" (.obj .nil) .nil)) "<notsvg/>"
    (.ok "png-bytes") (by decide)

/-- C6 (counterexample): the claim fails for `render_svg`. On a valid
verdict with a failing rasterizer, the handler does NOT return an
`isError` envelope: its catch block re-throws a new fault
`Error rendering SVG: <msg>`, which propagates out of the handler. -/
theorem c6_counterexample :
    render_svg ⟨true, [], []⟩ (.error "boom") =
      .thrown ("Error rendering SVG: boom") ∧
    isEnvelope (render_svg ⟨true, [], []⟩ (.error "boom")) = false := by
  exact ⟨rfl, rfl⟩

/-- C6 (amended): for the non-render handlers (optimize, format, save),
a collaborator failure is caught locally and converted into an
`isError = true` envelope whose single text item is
`Error <doing X>: <underlying message>`; `render_svg`, however, converts
a rasterization failure into a NEW thrown fault
`Error rendering SVG: <msg>` that propagates to the client instead of an
envelope. -/
theorem c6_collaborator_failures (m : String) (vd : Verdict)
    (svg filename cwd : String) (opt : Bool)
    (optimizeRes : Except String String) (dirname : String → String)
    (hvd : vd.valid = true) :
    optimize_svg (.error m) =
      .envelope [.text ("Error optimizing SVG: " ++ m)] true ∧
    format_svg (.error m) =
      .envelope [.text ("Error formatting SVG: " ++ m)] true ∧
    (save_svg svg filename opt optimizeRes cwd dirname (some m)).result =
      .envelope [.text ("Error saving SVG: " ++ m)] true ∧
    render_svg vd (.error m) = .thrown ("Error rendering SVG: " ++ m) := by
  refine ⟨rfl, rfl, rfl, ?_⟩
  unfold render_svg
  rw [hvd]
  rfl

/-- C6 (witness): the amended theorem applied at concrete inputs. -/
theorem c6_witness :
    optimize_svg (.error "bad svg") =
      .envelope [.text ("Error optimizing SVG: " ++ "bad svg")] true ∧
    format_svg (.error "bad svg") =
      .envelope [.text ("Error formatting SVG: " ++ "bad svg")] true ∧
    (save_svg "<svg/>" "a.svg" false (.ok "<svg/>") "/cwd"
      (fun _ => "/cwd") (some "bad svg")).result =
      .envelope [.text ("Error saving SVG: " ++ "bad svg")] true ∧
    render_svg ⟨true, [], []⟩ (.error "bad svg") =
      .thrown ("Error rendering SVG: " ++ "bad svg") :=
  c6_collaborator_failures "bad svg" ⟨true, [], []⟩ "<svg/>" "a.svg" "/cwd"
    false (.ok "<svg/>") (fun _ => "/cwd") rfl

/-- C7: `save_svg` with filename `icon` and `optimize = false` appends
the missing `.svg` extension, writes exactly the unmodified source as
the file contents at the resolved path, calls `mkdir` (recursive) on
the directory of that path, and returns a success envelope whose text is the
resolved path; the resolved path ends in `icon.svg`. -/
theorem c7_save_unmodified (cwd svg : String)
    (optimizeRes : Except String String) (dirname : String → String) :
    appendSvgExt "icon" = "icon.svg" ∧
    (save_svg svg "icon" false optimizeRes cwd dirname none).written
      = some (resolvePath cwd "icon.svg", svg) ∧
    (save_svg svg "icon" false optimizeRes cwd dirname none).result
      = .envelope [.text (resolvePath cwd "icon.svg")] false ∧
    (save_svg svg "icon" false optimizeRes cwd dirname none).mkdirArg
      = some (dirname (resolvePath cwd "icon.svg")) ∧
    "icon.svg".data <:+ (resolvePath cwd "icon.svg").data := by
  have he : appendSvgExt "icon" = "icon.svg" := by decide
  have hrel : strStartsWith "icon.svg" "/" = false := by decide
  have hres : resolvePath cwd "icon.svg" = cwd ++ "/" ++ "icon.svg" := by
    unfold resolvePath
    rw [hrel]
    rfl
  refine ⟨he, ?_, ?_, ?_, ?_⟩
  · simp [save_svg, he]
  · simp [save_svg, he]
  · simp [save_svg, he]
  · rw [hres]
    have : (cwd ++ "/" ++ "icon.svg").data = (cwd ++ "/").data ++ "icon.svg".data :=
      String.data_append (cwd ++ "/") "icon.svg"
    rw [this]
    exact ⟨(cwd ++ "/").data, rfl⟩

/-- C8: the `svg_to_data_uri` handler returns a success envelope whose
single text item starts with the prefix `data:image/svg+xml;base64,`,
and stripping that 26-character prefix and base64-decoding the remainder
recovers the UTF-8 bytes of the original input byte-for-byte. -/
theorem c8_data_uri_roundtrip (s : String) :
    svg_to_data_uri s = .envelope [.text (dataUriText s)] false ∧
    "data:image/svg+xml;base64,".data <+: (dataUriText s).data ∧
    b64Decode ((dataUriText s).data.drop 26) = utf8Bytes s := by
  have hdata : (dataUriText s).data
      = "data:image/svg+xml;base64,".data ++ b64Encode (utf8Bytes s) :=
    String.data_append "data:image/svg+xml;base64," (String.mk (b64Encode (utf8Bytes s)))
  refine ⟨rfl, ?_, ?_⟩
  · rw [hdata]
    exact ⟨b64Encode (utf8Bytes s), rfl⟩
  · rw [hdata]
    have hlen : ("data:image/svg+xml;base64,".data).length = 26 := by decide
    rw [← hlen, List.drop_left]
    exact b64_roundtrip (utf8Bytes s) (utf8Bytes_lt s)

/-- C9: with the declared `save_svg` contract, a mapping that supplies
`svg_code` but omits the required `filename` fails with
`MissingParameter` at dispatch, whatever the handler is (so the handler
is never invoked); extra unrecognized keys never change the validation
outcome (in particular they never cause a failure); and when the
optional `optimize` is absent the validated arguments carry its declared
default `true`. -/
theorem c9_request_validation (args extras : List (String × Value))
    (handler : List (String × Value) → ToolResult)
    (sv s2 f2 : String)
    (hsv : lookupArg args "svg_code" = some (.vstr sv))
    (hfn : lookupArg args "filename" = none)
    (hex : ∀ e ∈ extras, e.1 ∉ contractNames save_svg_contract) :
    dispatch save_svg_contract handler args
      = .dispatchErr (.MissingParameter "filename") ∧
    validateArgs save_svg_contract (args ++ extras)
      = validateArgs save_svg_contract args ∧
    validateArgs save_svg_contract [("svg_code", .vstr s2), ("filename", .vstr f2)]
      = .ok [("svg_code", .vstr s2), ("filename", .vstr f2), ("optimize", .vbool true)] := by
  refine ⟨?_, validateArgs_ignores_extras _ args extras hex, ?_⟩
  · unfold dispatch
    simp only [validateArgs, save_svg_contract, hsv, hfn, typeOfVal]
    rfl
  · simp only [validateArgs, save_svg_contract, lookupArg, typeOfVal]
    rfl

/-- C9 (witness): the theorem applied at concrete inputs — `save_svg`
invoked with only `svg_code` (plus an unrecognized extra key elsewhere). -/
theorem c9_witness :
    dispatch save_svg_contract (fun _ => .envelope [] false)
      [("svg_code", .vstr "<svg/>")]
      = .dispatchErr (.MissingParameter "filename") ∧
    validateArgs save_svg_contract
      ([("svg_code", .vstr "<svg/>")] ++ [("unknown_extra", .vnum 7)])
      = validateArgs save_svg_contract [("svg_code", .vstr "<svg/>")] :=
  ⟨(c9_request_validation [("svg_code", .vstr "<svg/>")]
      [("unknown_extra", .vnum 7)] (fun _ => .envelope [] false)
      "<svg/>" "x" "y" (by decide) (by decide) (by decide)).1,
   (c9_request_validation [("svg_code", .vstr "<svg/>")]
      [("unknown_extra", .vnum 7)] (fun _ => .envelope [] false)
      "<svg/>" "x" "y" (by decide) (by decide) (by decide)).2.1⟩

/-- C10: when the minifier collaborator fails during `save_svg` with
`optimize = true`, the inner catch swallows the failure: the handler
writes the original, unmodified source to the resolved target path and
returns a success envelope (no `isError`) carrying that path. -/
theorem c10_optimize_fallback (cwd svg filename m : String)
    (dirname : String → String) :
    (save_svg svg filename true (.error m) cwd dirname none).written
      = some (resolvePath cwd (appendSvgExt filename), svg) ∧
    (save_svg svg filename true (.error m) cwd dirname none).result
      = .envelope [.text (resolvePath cwd (appendSvgExt filename))] false := by
  exact ⟨rfl, rfl⟩

end SvgMaker
